import Mathlib

/-!
Verification development for the isbg mail-scanning tool
(sources: isbg/isbg.py, isbg/imap.py, isbg/base.py, isbg/util.py).

The Python code is shallowly embedded as pure Lean functions:

* Message uids are modelled as `Nat`.  In the Python scan pipeline the uids
  are decoded byte strings and in the learn pipeline they are ints; both are
  opaque tokens compared only by equality, so `Nat` is a faithful carrier.
* Classifier scores (Python floats such as `float(score.split('/')[0])` and
  the `--deletehigherthan` threshold) are modelled as `Rat`; every value the
  program compares is a short decimal literal, represented exactly.
* The filesystem trackfile that `pastuid_read` / `pastuid_write` use is
  modelled as an `Option PastFile`: `none` stands for a missing or unparsable
  file (any exception in the `try` of `pastuid_read` — `json.load` failure,
  missing file, missing keys).
* External effects (IMAP fetch responses, spamassassin process outcomes) are
  supplied by an environment `Uid → MsgEnv`; IMAP mutations performed by the
  pipeline are recorded as a trace of `IMAPCall` values.
* Python exceptions that escape the scan loop and `sys.exit` calls made by
  `errorexit` are modelled by an `Except PyAbort` result.
-/

abbrev Uid := Nat

/-- The parsed contents of one trackfile, as written by `pastuid_write`
(isbg.py:421-433): a JSON object with keys `uidvalidity` and `uids`. -/
structure PastFile where
  uidvalidity : Nat
  uids : List Uid
deriving DecidableEq

/-- `ISBG.pastuid_read` (isbg.py:405-419): loads the trackfile; if that fails
for any reason (missing file, parse error) the exception is swallowed and the
empty list is returned; if the recorded `uidvalidity` differs from the one
passed in, the stored uids are likewise ignored. -/
def pastuid_read (file : Option PastFile) (uidvalidity : Nat) : List Uid :=
  match file with
  | none => []
  | some struct => if struct.uidvalidity = uidvalidity then struct.uids else []

/-- `ISBG.pastuid_write` (isbg.py:421-433): persists
`{uidvalidity, uids: list(set(newpastuids + origpastuids))}`.  Python's
`list(set(...))` deduplicates with unspecified order; we embed it as
`List.dedup` of the concatenation and state only order-insensitive
(set-level) properties about it. -/
def pastuid_write (uidvalidity : Nat) (origpastuids newpastuids : List Uid) : PastFile :=
  { uidvalidity := uidvalidity
    uids := (newpastuids ++ origpastuids).dedup }

/-- The seen-filter of the scan pipeline (isbg.py:456-460):
`uids = [u for u in inboxuids if u not in origpastuids]` where
`origpastuids = pastuid_read(uidvalidity)`. -/
def scanFiltered (file : Option PastFile) (uidvalidity : Nat) (inboxuids : List Uid) :
    List Uid :=
  let origpastuids := pastuid_read file uidvalidity
  inboxuids.filter (fun u => decide (u ∉ origpastuids))

/-- C2 -- Round-trip of the persisted seen-state: writing
`pastuid_write(uidvalidity, origpastuids, newpastuids)` and reading the
resulting file back with `pastuid_read` at the same `uidvalidity` yields a
list whose set of elements is the union of the sets of `origpastuids` and
`newpastuids`. -/
theorem pastuid_write_read_roundtrip (uidvalidity : Nat)
    (origpastuids newpastuids : List Uid) :
    (pastuid_read (some (pastuid_write uidvalidity origpastuids newpastuids))
        uidvalidity).toFinset
      = origpastuids.toFinset ∪ newpastuids.toFinset := by
  ext a
  simp [pastuid_read, pastuid_write, List.mem_dedup, or_comm]

/-- C3 -- Identity invalidation: whenever the trackfile is missing/unparsable
(`none`) or records a `uidvalidity` different from the one passed in,
`pastuid_read` returns the empty list (raising nothing), and consequently the
seen-filter of the next run lets every inbox uid through as a candidate. -/
theorem pastuid_read_stale_empty (file : Option PastFile) (uidvalidity : Nat)
    (inboxuids : List Uid)
    (h : ∀ struct, file = some struct → struct.uidvalidity ≠ uidvalidity) :
    pastuid_read file uidvalidity = [] ∧
      scanFiltered file uidvalidity inboxuids = inboxuids := by
  have hread : pastuid_read file uidvalidity = [] := by
    cases file with
    | none => rfl
    | some struct =>
        simp [pastuid_read, h struct rfl]
  refine ⟨hread, ?_⟩
  simp [scanFiltered, hread]

/-- Closed witness for `pastuid_read_stale_empty`: a file recorded under
uidvalidity 1 is ignored when the mailbox now reports uidvalidity 2. -/
theorem pastuid_read_stale_empty_witness :
    pastuid_read (some ⟨1, [5, 6]⟩) 2 = [] ∧
      scanFiltered (some ⟨1, [5, 6]⟩) 2 [5, 6, 7] = [5, 6, 7] :=
  pastuid_read_stale_empty (some ⟨1, [5, 6]⟩) 2 [5, 6, 7]
    (by intro s hs; cases hs; decide)

/-! ## The scan pipeline (`ISBG.spamassassin`, isbg.py:435-599)

The embedding covers runs with `--dryrun` off (every claim concerns that
mode).  The preamble (selecting the spam inbox and the scan inbox, the
`SMALLER maxsize` search) is abstracted: the search result `inboxuids` and
the folder's `uidvalidity` are inputs.  The `sa_unwrap.unwrap` collaborator
only substitutes the message body, which is opaque to all control flow
modelled here, so it is elided.  Per-message external outcomes (the FETCH
response shape, the spamassassin test process, the report process, the IMAP
append) are supplied by an environment `Uid → MsgEnv`. -/

/-- Python exceptions that escape the pipeline. -/
inductive PyExn where
  | attributeError
  | typeError
  | nameError
deriving DecidableEq

/-- How a run terminates abnormally: `sysExit` models `errorexit`'s
`sys.exit(exitcode)` (isbg.py:97-102), `exn` an uncaught Python exception. -/
inductive PyAbort where
  | sysExit (code : Nat)
  | exn (e : PyExn)
deriving DecidableEq

/-- `ISBG.exitcodespamc` (isbg.py:145): error of communication between spamc
and spamd. -/
def exitcodespamc : Nat := 12

/-- `ISBG.spamflagscmd` (isbg.py:214). -/
def spamflagscmd : String := "+FLAGS.SILENT"

/-- The argument Python code passes as `flags` to `ISBGImap.store` /
`ISBGImap.append`: either a string literal or a list of flag strings. -/
inductive FlagsArg where
  | str (s : String)
  | list (l : List String)
deriving DecidableEq

/-- `ISBGImap._imapflags` (imap.py:29-37): a string is passed through
unchanged; for any other argument (the list case) the body evaluates the
undefined name `flaglist`, so Python raises `NameError`. -/
def imapflagsFmt : FlagsArg → Except PyExn String
  | .str s => .ok s
  | .list _ => .error .nameError

/-- One IMAP mutation issued by the pipeline.  `append u mbox` records that
the (possibly annotated) body of message `u` was appended to `mbox`;
`store uid cmd flags` records a successfully issued UID STORE, with `uid`
the string Python passed in the uid position. -/
inductive IMAPCall where
  | select (mbox : String)
  | append (u : Uid) (mbox : String)
  | copy (u : Uid) (mbox : String)
  | store (uid : String) (command : String) (flags : String)
  | expunge
deriving DecidableEq

/-- `ISBGImap.getmessage` (imap.py:75-84): the body is extracted as
`res[1][0][1]`, i.e. the second component of the first element of the data
list.  When the data does not have that shape, the `except` handler itself
fails: it calls `self.exception`, which is not an attribute of `ISBGImap`,
so an `AttributeError` is raised (and even with the handler repaired,
`return body` would hit an unbound local).  Hence a malformed response makes
`getmessage` raise instead of returning. -/
def getmessage (data : List (Option (String × String))) : Except PyExn String :=
  match data with
  | some (_, body) :: _ => .ok body
  | _ => .error .attributeError

/-- Outcome of running the spamassassin test command on one message body
(isbg.py:502-516): `commError` models any exception inside the `try`
(communication or score-regex failure), which is caught and makes the loop
`continue`; `scored text00 num code` models a completed invocation, where
`text00` says the score text is exactly the string 0/0 followed by newline,
`num` is `float(score.split('/')[0])` and `code` is the process exit code. -/
inductive SAOutcome where
  | commError
  | scored (text00 : Bool) (num : Rat) (code : Nat)
deriving DecidableEq

/-- The external world's behaviour for one message uid. -/
structure MsgEnv where
  fetchRes : List (Option (String × String))
  sa : SAOutcome
  saveOk : Bool
  appendOk : Bool
deriving DecidableEq

/-- The slice of resolved ISBG configuration the scan pipeline reads. -/
structure ScanConfig where
  imapinbox : String
  spaminbox : String
  deletehigherthan : Option Rat
  partialrun : Option Nat
  noreport : Bool
  spamflags : List String
  delete : Bool
  gmail : Bool
  expunge : Bool
deriving DecidableEq

/-- Mutable loop state of `ISBG.spamassassin`. -/
structure ScanState where
  newpastuids : List Uid
  spamlist : List Uid
  spamdeletelist : List Uid
  actions : List IMAPCall
deriving DecidableEq

def initScanState : ScanState := ⟨[], [], [], []⟩

/-- The auto-delete test (isbg.py:531-532):
`self.deletehigherthan is not None and float(score.split('/')[0]) > self.deletehigherthan`.
The comparison is strict. -/
def aboveDeleteThreshold (cfg : ScanConfig) (num : Rat) : Bool :=
  match cfg.deletehigherthan with
  | none => false
  | some t => decide (num > t)

/-- One iteration of the main scan loop (isbg.py:480-567), dryrun off:
fetch the body (a malformed response raises, see `getmessage`), append the
uid to `newpastuids`, run the test command; on `commError` continue; if the
score text is 0/0 call `errorexit(..., exitcodespamc)`; exit code 0 is ham
(no action); a score strictly above `deletehigherthan` goes to the delete
list with no further action; otherwise the message is reported (annotate
then append, failures of either step continue the loop) or, with
`--noreport`, copied to the spam folder, and the uid joins `spamlist`. -/
def processMsg (cfg : ScanConfig) (e : MsgEnv) (u : Uid) (st : ScanState) :
    Except PyAbort ScanState :=
  match getmessage e.fetchRes with
  | .error ex => .error (.exn ex)
  | .ok _body =>
    let st1 : ScanState := { st with newpastuids := st.newpastuids ++ [u] }
    match e.sa with
    | .commError => .ok st1
    | .scored text00 num code =>
      if text00 then
        .error (.sysExit exitcodespamc)
      else if code = 0 then
        .ok st1
      else if aboveDeleteThreshold cfg num then
        .ok { st1 with spamdeletelist := st1.spamdeletelist ++ [u] }
      else if cfg.noreport then
        .ok { st1 with spamlist := st1.spamlist ++ [u],
                       actions := st1.actions ++ [.copy u cfg.spaminbox] }
      else if e.saveOk = false then
        .ok st1
      else if e.appendOk = false then
        .ok st1
      else
        .ok { st1 with spamlist := st1.spamlist ++ [u],
                       actions := st1.actions ++ [.append u cfg.spaminbox] }

/-- The main scan loop over the filtered candidate uids. -/
def scanLoop (cfg : ScanConfig) (env : Uid → MsgEnv) :
    List Uid → ScanState → Except PyAbort ScanState
  | [], st => .ok st
  | u :: rest, st =>
    match processMsg cfg (env u) u st with
    | .error e => .error e
    | .ok st1 => scanLoop cfg env rest st1

/-- The flag-application loop over `spamlist` (isbg.py:582-585): each call is
`self.imap.store(u, self.spamflagscmd, self.spamflags)` with `self.spamflags`
a list, and `ISBGImap._imapflags` raises `NameError` on a list, so the first
iteration raises.  (The loop also re-appends `u` to `newpastuids`, after the
trackfile was already written at isbg.py:569 — without further effect.) -/
def storeFlagLoop (cmd : String) (flags : FlagsArg) :
    List Uid → Except PyExn (List IMAPCall)
  | [] => .ok []
  | u :: rest =>
    match imapflagsFmt flags with
    | .error ex => .error ex
    | .ok fl =>
      match storeFlagLoop cmd flags rest with
      | .error ex => .error ex
      | .ok cs => .ok (.store (toString u) cmd fl :: cs)

/-- The delete-list disposition loop (isbg.py:590-595).  Under gmail mode
each uid is copied to the trash folder.  Otherwise the code executes
`self.imap.store("STORE", u, self.spamflagscmd, "(\\Deleted)")` — four
positional arguments for `ISBGImap.store(self, uid, command, flags)` — which
Python rejects with `TypeError` before any store is issued (note the literal
"STORE" sits in the uid position and the actual uid in the command
position). -/
def deleteLoop (gmail : Bool) : List Uid → Except PyExn (List IMAPCall)
  | [] => .ok []
  | u :: rest =>
    if gmail then
      match deleteLoop gmail rest with
      | .error ex => .error ex
      | .ok cs => .ok (.copy u "[Gmail]/Trash" :: cs)
    else
      .error .typeError

/-- The post-loop labelling block (isbg.py:576-597), dryrun off: executed
only when at least one spam or delete hit occurred; re-selects the scan
folder, applies the configured flags to `spamlist` if any are configured,
under `--delete --gmail` copies `spamlist` to trash, disposes of the delete
list, and expunges if configured. -/
def postActions (cfg : ScanConfig) (spamlist spamdeletelist : List Uid) :
    Except PyExn (List IMAPCall) :=
  if spamlist.length + spamdeletelist.length = 0 then .ok []
  else
    match (if 0 < cfg.spamflags.length then
            storeFlagLoop spamflagscmd (.list cfg.spamflags) spamlist
          else .ok []) with
    | .error ex => .error ex
    | .ok stores =>
      let gmailcopies :=
        if cfg.delete && cfg.gmail then
          spamlist.map (fun u => IMAPCall.copy u "[Gmail]/Trash")
        else []
      match deleteLoop cfg.gmail spamdeletelist with
      | .error ex => .error ex
      | .ok dels =>
        .ok (IMAPCall.select cfg.imapinbox :: stores ++ gmailcopies ++ dels
              ++ (if cfg.expunge then [IMAPCall.expunge] else []))

/-- Candidate selection (isbg.py:456-464): the seen-filter followed by the
partial-run truncation `uids[:int(self.partialrun)]` when partialrun is
enabled. -/
def scanCandidates (cfg : ScanConfig) (file : Option PastFile) (uidvalidity : Nat)
    (inboxuids : List Uid) : List Uid :=
  match cfg.partialrun with
  | none => scanFiltered file uidvalidity inboxuids
  | some n => (scanFiltered file uidvalidity inboxuids).take n

deriving instance DecidableEq for Except

/-- Everything observable about one completed scan run: the processed
candidates, the two hit lists, the in-loop IMAP actions, the counters
computed at isbg.py:571-573 (returned at :599), the trackfile contents
written at :569, and the outcome of the post-loop labelling block (which in
the source runs after the trackfile write, so its exceptions do not undo
persistence). -/
structure ScanRunResult where
  uidsProcessed : List Uid
  spamlist : List Uid
  spamdeletelist : List Uid
  actions : List IMAPCall
  nummsg : Nat
  numspam : Nat
  spamdeleted : Nat
  persisted : PastFile
  post : Except PyExn (List IMAPCall)
deriving DecidableEq

/-- `ISBG.spamassassin` (isbg.py:435-599), dryrun off, as a function of the
configuration, the external environment, the trackfile contents, the scan
folder's uidvalidity and the uids returned by the SMALLER search. -/
def spamassassin (cfg : ScanConfig) (env : Uid → MsgEnv) (file : Option PastFile)
    (uidvalidity : Nat) (inboxuids : List Uid) : Except PyAbort ScanRunResult :=
  let origpastuids := pastuid_read file uidvalidity
  let uids := scanCandidates cfg file uidvalidity inboxuids
  match scanLoop cfg env uids initScanState with
  | .error e => .error e
  | .ok st =>
    .ok { uidsProcessed := uids
          spamlist := st.spamlist
          spamdeletelist := st.spamdeletelist
          actions := st.actions
          nummsg := uids.length
          numspam := st.spamlist.length + st.spamdeletelist.length
          spamdeleted := st.spamdeletelist.length
          persisted := pastuid_write uidvalidity origpastuids st.newpastuids
          post := postActions cfg st.spamlist st.spamdeletelist }

/-! ## Structural lemmas about the scan loop -/

/-- Every successful `processMsg` step appends exactly the processed uid to
`newpastuids` (isbg.py:483: the append happens right after the fetch,
before any classification branch). -/
theorem processMsg_newpastuids (cfg : ScanConfig) (e : MsgEnv) (u : Uid)
    (st st' : ScanState) (h : processMsg cfg e u st = .ok st') :
    st'.newpastuids = st.newpastuids ++ [u] := by
  simp only [processMsg] at h
  split at h
  · cases h
  · split at h
    · cases h
      rfl
    · split at h
      · cases h
      · split at h
        · cases h
          rfl
        · split at h
          · cases h
            rfl
          · split at h
            · cases h
              rfl
            · split at h
              · cases h
                rfl
              · split at h
                · cases h
                  rfl
                · cases h
                  rfl

/-- A scan loop that runs to completion visits every candidate uid, in
order: the final `newpastuids` is the initial one followed by the whole
candidate list. -/
theorem scanLoop_ok_newpastuids (cfg : ScanConfig) (env : Uid → MsgEnv) :
    ∀ (uids : List Uid) (st st' : ScanState),
      scanLoop cfg env uids st = .ok st' →
      st'.newpastuids = st.newpastuids ++ uids := by
  intro uids
  induction uids with
  | nil =>
      intro st st' h
      simp only [scanLoop] at h
      cases h
      simp
  | cons u rest ih =>
      intro st st' h
      simp only [scanLoop] at h
      cases hp : processMsg cfg (env u) u st with
      | error e =>
          rw [hp] at h
          cases h
      | ok st1 =>
          rw [hp] at h
          have h1 := processMsg_newpastuids cfg (env u) u st st1 hp
          have h2 := ih st1 st' h
          rw [h2, h1, List.append_assoc]
          rfl

/-! ## C1: idempotence of consecutive scan runs -/

/-- C1 -- Idempotence: a completed (non-aborting) scan run without a
partial-run cap fetches every candidate, records each of them as seen in the
trackfile written at isbg.py:569, so a second run over the same inbox uids
with the same uidvalidity has zero candidates after the seen-filter
(whatever its own configuration). -/
theorem scan_second_run_zero_candidates (cfg cfg2 : ScanConfig)
    (env : Uid → MsgEnv) (file : Option PastFile) (uidvalidity : Nat)
    (inboxuids : List Uid) (r1 : ScanRunResult)
    (hpr : cfg.partialrun = none)
    (h1 : spamassassin cfg env file uidvalidity inboxuids = .ok r1) :
    scanFiltered (some r1.persisted) uidvalidity inboxuids = [] ∧
      scanCandidates cfg2 (some r1.persisted) uidvalidity inboxuids = [] := by
  simp only [spamassassin] at h1
  split at h1
  · cases h1
  · rename_i st hloop
    cases h1
    have hnew : st.newpastuids =
        scanCandidates cfg file uidvalidity inboxuids := by
      have := scanLoop_ok_newpastuids cfg env
        (scanCandidates cfg file uidvalidity inboxuids) initScanState st hloop
      simpa [initScanState] using this
    have hcand : scanCandidates cfg file uidvalidity inboxuids =
        scanFiltered file uidvalidity inboxuids := by
      simp [scanCandidates, hpr]
    have hfirst :
        scanFiltered
          (some (pastuid_write uidvalidity (pastuid_read file uidvalidity)
            st.newpastuids)) uidvalidity inboxuids = [] := by
      rw [hnew, hcand]
      simp only [scanFiltered, pastuid_read, pastuid_write, if_pos]
      rw [List.filter_eq_nil_iff]
      intro a ha
      simp only [decide_eq_true_eq, not_not, List.mem_dedup, List.mem_append]
      by_cases horig : a ∈ pastuid_read file uidvalidity
      · exact Or.inr horig
      · refine Or.inl ?_
        simp only [scanFiltered, List.mem_filter, decide_eq_true_eq]
        exact ⟨ha, horig⟩
    refine ⟨hfirst, ?_⟩
    simp only [scanCandidates]
    cases cfg2.partialrun with
    | none => exact hfirst
    | some n => simp [hfirst]

/-- Config for the closed idempotence witness: no partial run, no deletion
threshold, no flags. -/
def cfgC1 : ScanConfig :=
  { imapinbox := "INBOX", spaminbox := "INBOX.spam", deletehigherthan := none,
    partialrun := none, noreport := false, spamflags := [], delete := false,
    gmail := false, expunge := false }

/-- Environment for the idempotence witness: every message fetches fine and
is classified ham. -/
def envC1 : Uid → MsgEnv := fun _ =>
  { fetchRes := [some ("hdr", "body")], sa := .scored false 0 0,
    saveOk := true, appendOk := true }

/-- The result of the witness first run (two ham messages, empty trackfile). -/
def rC1 : ScanRunResult :=
  { uidsProcessed := [1, 2], spamlist := [], spamdeletelist := [],
    actions := [], nummsg := 2, numspam := 0, spamdeleted := 0,
    persisted := ⟨3, [1, 2]⟩, post := .ok [] }

/-- Closed witness for `scan_second_run_zero_candidates`: after a first run
over uids 1 and 2, the second run's seen-filter removes everything. -/
theorem scan_second_run_zero_candidates_witness :
    scanFiltered (some rC1.persisted) 3 [1, 2] = [] ∧
      scanCandidates cfgC1 (some rC1.persisted) 3 [1, 2] = [] :=
  scan_second_run_zero_candidates cfgC1 cfgC1 envC1 none 3 [1, 2] rC1
    rfl (by decide)

/-! ## C6: the partial-run cap -/

/-- Helper: filtering a concatenation `t ++ d` by "not a member of `t`"
keeps exactly `d` when `d` is disjoint from `t`. -/
theorem filter_not_mem_left (t d : List Uid) (hdt : ∀ x ∈ d, x ∉ t) :
    (t ++ d).filter (fun x => decide (x ∉ t)) = d := by
  rw [List.filter_append]
  have h1 : t.filter (fun x => decide (x ∉ t)) = [] := by
    rw [List.filter_eq_nil_iff]
    intro a ha
    simp [ha]
  have h2 : d.filter (fun x => decide (x ∉ t)) = d := by
    rw [List.filter_eq_self]
    intro a ha
    simp [hdt a ha]
  rw [h1, h2, List.nil_append]

/-- Helper: on a duplicate-free list, filtering away the members of its own
`n`-prefix leaves exactly the suffix from position `n` on. -/
theorem nodup_filter_take_eq_drop (l : List Uid) (n : Nat) (h : l.Nodup) :
    l.filter (fun x => decide (x ∉ l.take n)) = l.drop n := by
  have hdt : ∀ x ∈ l.drop n, x ∉ l.take n := fun x hx hxt =>
    (List.disjoint_take_drop h le_rfl) hxt hx
  have key := filter_not_mem_left (l.take n) (l.drop n) hdt
  rw [List.take_append_drop] at key
  exact key

/-- Helper: the seen-filter against the trackfile written by
`pastuid_write(v, orig, newuids)` equals the old seen-filter followed by a
filter against `newuids`. -/
theorem scanFiltered_after_write (file : Option PastFile) (v : Nat)
    (ins newuids : List Uid) :
    scanFiltered (some (pastuid_write v (pastuid_read file v) newuids)) v ins
      = (scanFiltered file v ins).filter (fun u => decide (u ∉ newuids)) := by
  have hread :
      pastuid_read (some (pastuid_write v (pastuid_read file v) newuids)) v
        = (newuids ++ pastuid_read file v).dedup := by
    simp [pastuid_read, pastuid_write]
  simp only [scanFiltered, List.filter_filter, hread]
  apply List.filter_congr
  intro u _
  by_cases h1 : u ∈ newuids <;> by_cases h2 : u ∈ pastuid_read file v <;>
    simp [List.mem_dedup, h1, h2]

/-- C6 -- Partial-run cap: with `partialrun = n` a completed run processes
exactly the first `n` uids (in mailbox order) of the seen-filtered
candidates, the trackfile it writes holds exactly the prior seen set plus
those `n` uids, and the seen-filter of the next run (same inbox contents,
same uidvalidity) yields exactly the remaining candidates. -/
theorem partialrun_cap (cfg : ScanConfig) (env : Uid → MsgEnv)
    (file : Option PastFile) (uidvalidity : Nat) (inboxuids : List Uid)
    (n : Nat) (r : ScanRunResult)
    (hpr : cfg.partialrun = some n)
    (hnd : inboxuids.Nodup)
    (h : spamassassin cfg env file uidvalidity inboxuids = .ok r) :
    r.uidsProcessed = (scanFiltered file uidvalidity inboxuids).take n ∧
      r.persisted.uids.toFinset
        = (pastuid_read file uidvalidity).toFinset
            ∪ ((scanFiltered file uidvalidity inboxuids).take n).toFinset ∧
      scanFiltered (some r.persisted) uidvalidity inboxuids
        = (scanFiltered file uidvalidity inboxuids).drop n := by
  simp only [spamassassin] at h
  split at h
  · cases h
  · rename_i st hloop
    cases h
    have hnew : st.newpastuids = scanCandidates cfg file uidvalidity inboxuids := by
      have := scanLoop_ok_newpastuids cfg env
        (scanCandidates cfg file uidvalidity inboxuids) initScanState st hloop
      simpa [initScanState] using this
    have hcand : scanCandidates cfg file uidvalidity inboxuids
        = (scanFiltered file uidvalidity inboxuids).take n := by
      simp [scanCandidates, hpr]
    refine ⟨hcand, ?_, ?_⟩
    · simp only [pastuid_write, hnew, hcand]
      ext a
      simp [List.mem_dedup, or_comm]
    · show scanFiltered
          (some (pastuid_write uidvalidity (pastuid_read file uidvalidity)
            st.newpastuids)) uidvalidity inboxuids
        = (scanFiltered file uidvalidity inboxuids).drop n
      rw [hnew, hcand, scanFiltered_after_write]
      exact nodup_filter_take_eq_drop (scanFiltered file uidvalidity inboxuids)
        n (by simpa [scanFiltered] using hnd.filter _)

/-- Config for the closed partial-run witness: cap of 1, otherwise as in the
idempotence witness. -/
def cfgC6 : ScanConfig :=
  { imapinbox := "INBOX", spaminbox := "INBOX.spam", deletehigherthan := none,
    partialrun := some 1, noreport := false, spamflags := [], delete := false,
    gmail := false, expunge := false }

/-- Environment for the partial-run witness: all ham. -/
def envC6 : Uid → MsgEnv := fun _ =>
  { fetchRes := [some ("hdr", "body")], sa := .scored false 0 0,
    saveOk := true, appendOk := true }

/-- The result of the capped witness run (two unseen candidates, cap 1). -/
def rC6 : ScanRunResult :=
  { uidsProcessed := [1], spamlist := [], spamdeletelist := [],
    actions := [], nummsg := 1, numspam := 0, spamdeleted := 0,
    persisted := ⟨3, [1]⟩, post := .ok [] }

/-- Closed witness for `partialrun_cap`: of the two unseen candidates 1 and
2 only uid 1 is processed and persisted; uid 2 remains a candidate. -/
theorem partialrun_cap_witness :
    rC6.uidsProcessed = (scanFiltered none 3 [1, 2]).take 1 ∧
      rC6.persisted.uids.toFinset
        = (pastuid_read none 3).toFinset
            ∪ ((scanFiltered none 3 [1, 2]).take 1).toFinset ∧
      scanFiltered (some rC6.persisted) 3 [1, 2]
        = (scanFiltered none 3 [1, 2]).drop 1 :=
  partialrun_cap cfgC6 envC6 none 3 [1, 2] 1 rC6 rfl (by decide) (by decide)

/-! ## C5: the delete threshold comparison is strict -/

/-- C5 -- Threshold tie-break: when the parsed score `num` does not strictly
exceed `deletehigherthan` (in particular when it ties), a spam-classified
message goes to the spam list with a copy/append to the spam folder and the
delete list is untouched; only `num > deletehigherthan` routes it to the
delete list (and then the spam list, the report, and the copy are all
skipped). -/
theorem deletehigherthan_strict (cfg : ScanConfig) (e : MsgEnv) (u : Uid)
    (st : ScanState) (num t : Rat) (code : Nat)
    (m b : String) (restRes : List (Option (String × String)))
    (hfetch : e.fetchRes = some (m, b) :: restRes)
    (hd : cfg.deletehigherthan = some t)
    (hsa : e.sa = .scored false num code)
    (hcode : code ≠ 0)
    (hsave : e.saveOk = true)
    (happend : e.appendOk = true) :
    (num ≤ t →
      processMsg cfg e u st =
        .ok ⟨st.newpastuids ++ [u], st.spamlist ++ [u], st.spamdeletelist,
             st.actions ++
               [if cfg.noreport then IMAPCall.copy u cfg.spaminbox
                else IMAPCall.append u cfg.spaminbox]⟩) ∧
    (t < num →
      processMsg cfg e u st =
        .ok ⟨st.newpastuids ++ [u], st.spamlist, st.spamdeletelist ++ [u],
             st.actions⟩) := by
  constructor <;> intro hcmp
  · have hthr : aboveDeleteThreshold cfg num = false := by
      simp [aboveDeleteThreshold, hd, not_lt.mpr hcmp]
    cases hnr : cfg.noreport <;>
      simp [processMsg, hfetch, getmessage, hsa, hcode, hthr, hnr, hsave,
        happend]
  · have hthr : aboveDeleteThreshold cfg num = true := by
      simp [aboveDeleteThreshold, hd, hcmp]
    simp [processMsg, hfetch, getmessage, hsa, hcode, hthr]

/-- Config for the tie-break witness: threshold 10, report path. -/
def cfgC5 : ScanConfig :=
  { imapinbox := "INBOX", spaminbox := "INBOX.spam",
    deletehigherthan := some 10, partialrun := none, noreport := false,
    spamflags := [], delete := false, gmail := false, expunge := false }

/-- Environment entry for the tie-break witness: spam verdict with score
exactly 10. -/
def msgC5 : MsgEnv :=
  { fetchRes := [some ("hdr", "body")], sa := .scored false 10 1,
    saveOk := true, appendOk := true }

/-- Closed witness for `deletehigherthan_strict` at the tie `score = 10 =
deletehigherthan`: the message lands in the spam list, not the delete
list. -/
theorem deletehigherthan_strict_witness :
    ((10 : Rat) ≤ 10 →
      processMsg cfgC5 msgC5 7 initScanState =
        .ok ⟨[7], [7], [],
             [if cfgC5.noreport then IMAPCall.copy 7 cfgC5.spaminbox
              else IMAPCall.append 7 cfgC5.spaminbox]⟩) ∧
    ((10 : Rat) < 10 →
      processMsg cfgC5 msgC5 7 initScanState =
        .ok ⟨[7], [], [7], []⟩) :=
  deletehigherthan_strict cfgC5 msgC5 7 initScanState 10 10 1 "hdr" "body" []
    rfl rfl rfl (by decide) rfl rfl

/-! ## C7: degenerate 0/0 score aborts the run -/

/-- C7 -- Degenerate score: when the test command's score text for the
current candidate is the degenerate 0/0 line and its exit code is nonzero,
the loop calls `errorexit(..., exitcodespamc)` (isbg.py:517-518), so the
whole run stops with exit status 12; the result does not depend on the
remaining candidates, none of which is processed.  (The source aborts on
the degenerate text whatever the exit code; the nonzero-exit hypothesis from
the claim is included but unused.) -/
theorem degenerate_score_aborts (cfg : ScanConfig) (env : Uid → MsgEnv)
    (u : Uid) (rest : List Uid) (st : ScanState) (num : Rat) (code : Nat)
    (m b : String) (restRes : List (Option (String × String)))
    (hfetch : (env u).fetchRes = some (m, b) :: restRes)
    (hsa : (env u).sa = .scored true num code)
    (_hcode : code ≠ 0) :
    scanLoop cfg env (u :: rest) st = .error (.sysExit 12) := by
  simp [scanLoop, processMsg, hfetch, getmessage, hsa, exitcodespamc]

/-- Config for the degenerate-score witness. -/
def cfgC7 : ScanConfig :=
  { imapinbox := "INBOX", spaminbox := "INBOX.spam", deletehigherthan := none,
    partialrun := none, noreport := false, spamflags := [], delete := false,
    gmail := false, expunge := false }

/-- Environment for the degenerate-score witness: every fetch succeeds and
the test command reports the 0/0 text with exit code 1. -/
def envC7 : Uid → MsgEnv := fun _ =>
  { fetchRes := [some ("hdr", "body")], sa := .scored true 0 1,
    saveOk := true, appendOk := true }

/-- Closed witness for `degenerate_score_aborts`: a 0/0 score with exit code
1 on uid 4 aborts the loop with exit status 12 even with uid 5 pending. -/
theorem degenerate_score_aborts_witness :
    scanLoop cfgC7 envC7 [4, 5] initScanState = .error (.sysExit 12) :=
  degenerate_score_aborts cfgC7 envC7 4 [5] initScanState 0 1 "hdr" "body" []
    rfl rfl (by decide)

/-! ## C4: run counters and the three-message scenario -/

/-- Config for the C4 scenario: `deletehigherthan = 10`, gmail-style
deletion (so the delete-list disposition is the trash copy), no flags,
`--noreport` so the spam action is the copy to the spam folder. -/
def cfgC4 : ScanConfig :=
  { imapinbox := "INBOX", spaminbox := "INBOX.spam",
    deletehigherthan := some 10, partialrun := none, noreport := true,
    spamflags := [], delete := false, gmail := true, expunge := false }

/-- Environment for the C4 scenario: ham for 101, spam 5/10 for 102, spam
12/10 for 103. -/
def envC4 : Uid → MsgEnv := fun u =>
  if u = 101 then
    { fetchRes := [some ("hdr", "b101")], sa := .scored false 0 0,
      saveOk := true, appendOk := true }
  else if u = 102 then
    { fetchRes := [some ("hdr", "b102")], sa := .scored false 5 1,
      saveOk := true, appendOk := true }
  else
    { fetchRes := [some ("hdr", "b103")], sa := .scored false 12 1,
      saveOk := true, appendOk := true }

/-- Expected result of the C4 scenario run. -/
def rC4 : ScanRunResult :=
  { uidsProcessed := [101, 102, 103], spamlist := [102],
    spamdeletelist := [103],
    actions := [IMAPCall.copy 102 "INBOX.spam"],
    nummsg := 3, numspam := 2, spamdeleted := 1,
    persisted := ⟨1, [101, 102, 103]⟩,
    post := .ok [IMAPCall.select "INBOX", IMAPCall.copy 103 "[Gmail]/Trash"] }

/-- C4 -- Run counters: every successful run returns
`nummsg = len(uids-after-filter-and-cap)`,
`numspam = len(spamlist) + len(spamdeletelist)` and
`spamdeleted = len(spamdeletelist)` (isbg.py:571-573); and in the concrete
scenario (candidates 101/102/103 against an empty seen set, ham, spam 5/10,
spam 12/10 with threshold 10) the counters are total 3, spam 2, deleted 1,
uid 103 is never appended nor copied to the spam folder, and its only
disposition is the gmail trash copy. -/
theorem runcounters_spec (cfg : ScanConfig) (env : Uid → MsgEnv)
    (file : Option PastFile) (uidvalidity : Nat) (inboxuids : List Uid)
    (r : ScanRunResult)
    (h : spamassassin cfg env file uidvalidity inboxuids = .ok r) :
    (r.nummsg = (scanCandidates cfg file uidvalidity inboxuids).length ∧
      r.numspam = r.spamlist.length + r.spamdeletelist.length ∧
      r.spamdeleted = r.spamdeletelist.length) ∧
    (spamassassin cfgC4 envC4 none 1 [101, 102, 103] = .ok rC4 ∧
      rC4.nummsg = 3 ∧ rC4.numspam = 2 ∧ rC4.spamdeleted = 1 ∧
      rC4.spamlist = [102] ∧ rC4.spamdeletelist = [103] ∧
      IMAPCall.append 103 "INBOX.spam" ∉ rC4.actions ∧
      IMAPCall.copy 103 "INBOX.spam" ∉ rC4.actions ∧
      rC4.post = .ok [IMAPCall.select "INBOX",
                      IMAPCall.copy 103 "[Gmail]/Trash"]) := by
  constructor
  · simp only [spamassassin] at h
    split at h
    · cases h
    · cases h
      simp
  · refine ⟨by decide, by decide, by decide, by decide, by decide, by decide,
      by decide, by decide, by decide⟩

/-- Closed witness for `runcounters_spec`, instantiated at the scenario run
itself. -/
theorem runcounters_spec_witness :
    (rC4.nummsg = (scanCandidates cfgC4 none 1 [101, 102, 103]).length ∧
      rC4.numspam = rC4.spamlist.length + rC4.spamdeletelist.length ∧
      rC4.spamdeleted = rC4.spamdeletelist.length) ∧
    (spamassassin cfgC4 envC4 none 1 [101, 102, 103] = .ok rC4 ∧
      rC4.nummsg = 3 ∧ rC4.numspam = 2 ∧ rC4.spamdeleted = 1 ∧
      rC4.spamlist = [102] ∧ rC4.spamdeletelist = [103] ∧
      IMAPCall.append 103 "INBOX.spam" ∉ rC4.actions ∧
      IMAPCall.copy 103 "INBOX.spam" ∉ rC4.actions ∧
      rC4.post = .ok [IMAPCall.select "INBOX",
                      IMAPCall.copy 103 "[Gmail]/Trash"]) :=
  runcounters_spec cfgC4 envC4 none 1 [101, 102, 103] rC4 (by decide)

/-! ## C8: the post-loop store calls -/

/-- Config exercising the spam-list flag loop: one configured flag, gmail
off. -/
def cfgC8flag : ScanConfig :=
  { imapinbox := "INBOX", spaminbox := "INBOX.spam",
    deletehigherthan := some 10, partialrun := none, noreport := false,
    spamflags := ["\\Flagged"], delete := false, gmail := false,
    expunge := true }

/-- Config exercising the delete-list loop: no flags (so the flag loop is
skipped), gmail off. -/
def cfgC8del : ScanConfig :=
  { imapinbox := "INBOX", spaminbox := "INBOX.spam",
    deletehigherthan := some 10, partialrun := none, noreport := false,
    spamflags := [], delete := false, gmail := false, expunge := true }

/-- C8 -- Post-loop labelling, evaluated at the failing inputs: with a
non-empty configured flag set and spam-list `[102]`, the flag loop's first
`store` call raises `NameError` (imap.py:37 evaluates the undefined name
`flaglist` for a list argument), so the flags are never applied; and with
delete-list `[103]` under non-gmail mode, isbg.py:595 calls `imap.store`
with four arguments — the literal "STORE" occupying the uid parameter —
which raises `TypeError`, so no `\Deleted` store with the message id as uid
argument is ever issued (and the configured expunge is never reached). -/
theorem postActions_store_crashes :
    postActions cfgC8flag [102] [] = .error PyExn.nameError ∧
      postActions cfgC8del [] [103] = .error PyExn.typeError := by
  exact ⟨by decide, by decide⟩

/-! ## C10: a vanished message aborts the run -/

/-- Config for the vanished-message run. -/
def cfgC10 : ScanConfig :=
  { imapinbox := "INBOX", spaminbox := "INBOX.spam", deletehigherthan := none,
    partialrun := none, noreport := false, spamflags := [], delete := false,
    gmail := false, expunge := false }

/-- Environment for the vanished-message run: the FETCH response for uid 7
has the unexpected shape `[None]` (the message was deleted concurrently);
uid 8 would fetch fine. -/
def envC10 : Uid → MsgEnv := fun u =>
  if u = 7 then
    { fetchRes := [none], sa := .scored false 0 0,
      saveOk := true, appendOk := true }
  else
    { fetchRes := [some ("hdr", "body")], sa := .scored false 0 0,
      saveOk := true, appendOk := true }

/-- C10 -- Vanished message, evaluated at the failing input: a FETCH
response of unexpected shape makes `getmessage` raise `AttributeError`
(imap.py:82 calls the nonexistent `self.exception`), and since
`spamassassin`'s loop does not guard the `getmessage` call (isbg.py:482),
the whole run over `[7, 8]` aborts — uid 7 is not recorded as seen, no
trackfile is written, and uid 8 is never examined — instead of warning and
continuing. -/
theorem gone_message_aborts_run :
    getmessage [none] = .error PyExn.attributeError ∧
      spamassassin cfgC10 envC10 none 1 [7, 8]
        = .error (.exn PyExn.attributeError) := by
  exact ⟨by decide, by decide⟩

/-! ## C9: mutual exclusion of learnflagged and learnunflagged -/

/-- The learn-related attributes set by `ISBG.set_learning_opts`
(isbg.py:283-289). -/
structure LearnOpts where
  learnflagged : Bool
  learnunflagged : Bool
  learnthendestroy : Bool
  learnthenflag : Bool
deriving DecidableEq

/-- `ISBG.set_learning_opts` (isbg.py:283-289): raises
`ValueError('Cannot pass learnflagged and learnunflagged at same time')`
when both are set, otherwise stores the four attributes.  This is a pure
configuration setter: no mailbox-protocol I/O happens before or in it. -/
def set_learning_opts (learnflagged learnunflagged learnthendestroy learnthenflag : Bool) :
    Except String LearnOpts :=
  if learnflagged && learnunflagged then
    .error "Cannot pass learnflagged and learnunflagged at same time"
  else
    .ok ⟨learnflagged, learnunflagged, learnthendestroy, learnthenflag⟩

/-- `ISBG.exitcodeflags` (isbg.py:143): errors in the command line
arguments. -/
def exitcodeflags : Nat := 10

/-- The command-line option values `ISBG.parse_args` examines, restricted to
the options with validation or learn-related effect.  A `some` value is an
already-parsed option occurrence (the float/int conversion failures call
`errorexit` too, but no claim touches them). -/
structure CLIOpts where
  deletehigherthanOpt : Option Rat
  maxsizeOpt : Option Nat
  partialrunOpt : Option Nat
  learnflaggedOpt : Bool
  learnunflaggedOpt : Bool
  learnthendestroyOpt : Bool
  learnthenflagOpt : Bool
deriving DecidableEq

/-- The configuration state produced by a successful `parse_args`. -/
structure ParsedArgs where
  deletehigherthan : Option Rat
  maxsize : Nat
  partialrun : Option Nat
  learnopts : LearnOpts
deriving DecidableEq

/-- `ISBG.parse_args` (isbg.py:316-403) restricted to the modelled options,
in source order: the `--deletehigherthan` bound check (isbg.py:330), the
`--maxsize` bound check (isbg.py:356), the `--partialrun` bound check
(isbg.py:374) — each failure is `errorexit(..., exitcodeflags)`, i.e.
`sys.exit(10)` — and then the learn options (isbg.py:386-389), which are
assigned directly to the attributes: `set_learning_opts`, and with it the
mutual-exclusion check, is not invoked on this path. -/
def parse_args (o : CLIOpts) : Except PyAbort ParsedArgs :=
  match (match o.deletehigherthanOpt with
         | none => Except.ok none
         | some d =>
             if d < 1 then Except.error (PyAbort.sysExit exitcodeflags)
             else Except.ok (some d)) with
  | .error e => .error e
  | .ok dht =>
    match (match o.maxsizeOpt with
           | none => Except.ok 120000
           | some s =>
               if s < 1 then Except.error (PyAbort.sysExit exitcodeflags)
               else Except.ok s) with
    | .error e => .error e
    | .ok ms =>
      match (match o.partialrunOpt with
             | none => Except.ok none
             | some n =>
                 if n < 1 then Except.error (PyAbort.sysExit exitcodeflags)
                 else Except.ok (some n)) with
      | .error e => .error e
      | .ok pr =>
        .ok { deletehigherthan := dht, maxsize := ms, partialrun := pr,
              learnopts := ⟨o.learnflaggedOpt, o.learnunflaggedOpt,
                            o.learnthendestroyOpt, o.learnthenflagOpt⟩ }

/-- A command line passing both `--learnflagged` and `--learnunflagged` and
nothing else. -/
def cliBothLearn : CLIOpts :=
  { deletehigherthanOpt := none, maxsizeOpt := none, partialrunOpt := none,
    learnflaggedOpt := true, learnunflaggedOpt := true,
    learnthendestroyOpt := false, learnthenflagOpt := false }

/-- C9 counterexample -- the CLI path does not reject the combination:
`parse_args` on a command line with both `--learnflagged` and
`--learnunflagged` completes without any error, with both attributes set,
and `do_isbg` would proceed to connect. -/
theorem parse_args_accepts_both_learn :
    parse_args cliBothLearn
      = .ok { deletehigherthan := none, maxsize := 120000, partialrun := none,
              learnopts := ⟨true, true, false, false⟩ } := by
  decide

/-- C9 (amended) -- The mutual exclusion is enforced exactly on the
`set_learning_opts` API: calling it with both flags raises `ValueError`
before any mailbox-protocol I/O; the CLI `parse_args` path, however,
assigns both attributes directly without that check, so a command line
setting both is accepted. -/
theorem set_learning_opts_mutual_exclusion (learnthendestroy learnthenflag : Bool) :
    set_learning_opts true true learnthendestroy learnthenflag
        = .error "Cannot pass learnflagged and learnunflagged at same time" ∧
      parse_args cliBothLearn
        = .ok { deletehigherthan := none, maxsize := 120000,
                partialrun := none,
                learnopts := ⟨true, true, false, false⟩ } := by
  exact ⟨by simp [set_learning_opts], by decide⟩
